import Mathlib

/-!
Verification of the symbology codec and validator module of a mobile
scanner/generator application.  JavaScript strings are modelled as
`List Char`.  The checksum helpers and the format registry mirror the
source file `src/app/(tabs)/(4-generator)/index.tsx`; the history
helpers mirror the scan/generation history storage utilities.
-/

set_option maxRecDepth 8192

namespace MobileScanner

/-- Numeric value of a digit character, mirroring `Number.parseInt(c, 10)`
applied to a single digit character `0`–`9`. -/
def toDigit (c : Char) : ℕ := c.toNat - 48

/-- Membership in the regex character class `\d` (the characters `0`–`9`). -/
def isDigitChar (c : Char) : Bool := 48 ≤ c.toNat && c.toNat ≤ 57

/-- Digit character for a value `n < 10` (used where a computed check digit
is appended to a digit string). -/
def digitChar (n : ℕ) : Char := Char.ofNat (48 + n)

/-- Weighted digit sum with weights 1,3,1,3,… starting at index `k`,
mirroring the loop of `calculateEAN13Checksum` (even index ×1, odd ×3). -/
def sumW1 : List Char → ℕ → ℕ
  | [], _ => 0
  | c :: rest, k => (if k % 2 = 0 then toDigit c else 3 * toDigit c) + sumW1 rest (k + 1)

/-- Weighted digit sum with weights 3,1,3,1,… starting at index `k`,
mirroring the loops of `isValidEAN8`, `isValidUPCA` and `isValidITF14`
(even index ×3, odd ×1). -/
def sumW3 : List Char → ℕ → ℕ
  | [], _ => 0
  | c :: rest, k => (if k % 2 = 0 then 3 * toDigit c else toDigit c) + sumW3 rest (k + 1)

/-- Shared final step `(10 - (sum % 10)) % 10` of every check digit
computation in the source. -/
def mod10Check (s : ℕ) : ℕ := (10 - s % 10) % 10

/-- Model of `calculateEAN13Checksum` (source lines 107–114): weighted sum
over the first 12 characters, even index ×1, odd index ×3, then the mod-10
step.  The source reads `digits[i]` for `i < 12`, i.e. the first 12
characters, which is `v.take 12`. -/
def calculateEAN13Checksum (v : List Char) : ℕ := mod10Check (sumW1 (v.take 12) 0)

/-- Model of `isValidEAN13` (source lines 116–120): the regex
`^\d{13}$` then comparison of the computed check digit with `value[12]`. -/
def isValidEAN13 (v : List Char) : Bool :=
  v.length == 13 && v.all isDigitChar &&
    (calculateEAN13Checksum v == toDigit (v.getD 12 'X'))

/-- Check digit computed by `isValidEAN8` over the first 7 characters
(even index ×3, odd ×1). -/
def ean8Check (v : List Char) : ℕ := mod10Check (sumW3 (v.take 7) 0)

/-- Model of `isValidEAN8` (source lines 122–131). -/
def isValidEAN8 (v : List Char) : Bool :=
  v.length == 8 && v.all isDigitChar && (ean8Check v == toDigit (v.getD 7 'X'))

/-- Check digit computed by `isValidUPCA` over the first 11 characters
(even index ×3, odd ×1). -/
def upcaCheck (v : List Char) : ℕ := mod10Check (sumW3 (v.take 11) 0)

/-- Model of `isValidUPCA` (source lines 133–142). -/
def isValidUPCA (v : List Char) : Bool :=
  v.length == 12 && v.all isDigitChar && (upcaCheck v == toDigit (v.getD 11 'X'))

/-- Check digit computed by `isValidITF14` over the first 13 characters.
The source loop uses `i % 2 === 0 ? digit * 3 : digit`, i.e. even index ×3
and odd index ×1. -/
def itf14Check (v : List Char) : ℕ := mod10Check (sumW3 (v.take 13) 0)

/-- Model of `isValidITF14` (source lines 163–173): the regex `^\d{14}$`
then comparison of the computed check digit with `value[13]`. -/
def isValidITF14 (v : List Char) : Bool :=
  v.length == 14 && v.all isDigitChar && (itf14Check v == toDigit (v.getD 13 'X'))

/-- Check digit for a 14-digit ITF-14 string computed the way the SPEC
describes it (same weighting as EAN-13: even index ×1, odd index ×3 over
the first 13 digits).  This definition follows the spec text, not the
source, and exists only to be compared against `isValidITF14`. -/
def specEAN13WeightedITF14Check (v : List Char) : ℕ := mod10Check (sumW1 (v.take 13) 0)

/- ------------------------------------------------------------------ -/
/- Basic lemmas about digits and the weighted sums.                    -/
/- ------------------------------------------------------------------ -/

theorem mod10Check_lt (s : ℕ) : mod10Check s < 10 :=
  Nat.mod_lt _ (by norm_num)

theorem toDigit_digitChar {n : ℕ} (h : n < 10) : toDigit (digitChar n) = n := by
  interval_cases n <;> decide

theorem isDigitChar_digitChar {n : ℕ} (h : n < 10) : isDigitChar (digitChar n) = true := by
  interval_cases n <;> decide

theorem take_append_self {α : Type} (l m : List α) : (l ++ m).take l.length = l := by
  simp

theorem getD_append_self (l m : List Char) (c : Char) :
    (l ++ m).getD l.length c = m.getD 0 c := by
  induction l with
  | nil => rfl
  | cons a t ih => simpa using ih

/-- Round trip for EAN-13, part of claim C3: appending the computed check
digit to a 12-digit string changes neither the first 12 characters nor the
computed checksum. -/
theorem calculateEAN13Checksum_append (d : List Char) (c : Char) (h : d.length = 12) :
    calculateEAN13Checksum (d ++ [c]) = calculateEAN13Checksum d := by
  unfold calculateEAN13Checksum
  rw [show (12 : ℕ) = d.length from h.symm, take_append_self, List.take_length]

/-- C3: EAN-13 check-digit round trip.  For every 12-digit numeric string
`d`, `isValidEAN13 (d ++ [digitChar (calculateEAN13Checksum d)])` holds, and
a 13-digit numeric string is valid iff its last digit equals the check
digit computed over its first 12 digits. -/
theorem ean13_checkdigit_roundtrip :
    (∀ d : List Char, d.length = 12 → d.all isDigitChar = true →
      isValidEAN13 (d ++ [digitChar (calculateEAN13Checksum d)]) = true) ∧
    (∀ v : List Char, v.length = 13 → v.all isDigitChar = true →
      (isValidEAN13 v = true ↔ toDigit (v.getD 12 'X') = calculateEAN13Checksum v)) := by
  constructor
  · intro d hlen hdig
    have hck : calculateEAN13Checksum (d ++ [digitChar (calculateEAN13Checksum d)])
        = calculateEAN13Checksum d := calculateEAN13Checksum_append d _ hlen
    have hget : (d ++ [digitChar (calculateEAN13Checksum d)]).getD 12 'X'
        = digitChar (calculateEAN13Checksum d) := by
      rw [show (12 : ℕ) = d.length from hlen.symm, getD_append_self]
      rfl
    have h1 : isDigitChar (digitChar (calculateEAN13Checksum d)) = true :=
      isDigitChar_digitChar (mod10Check_lt _)
    have h2 : toDigit (digitChar (calculateEAN13Checksum d)) = calculateEAN13Checksum d :=
      toDigit_digitChar (mod10Check_lt _)
    simp [isValidEAN13, hck, hget, hlen, hdig, h1, h2]
  · intro v hlen hdig
    simp only [isValidEAN13, Bool.and_eq_true, beq_iff_eq]
    constructor
    · rintro ⟨-, h⟩
      exact h.symm
    · intro h
      exact ⟨⟨hlen, hdig⟩, h.symm⟩

/-- Witness for C3 on the known test vector 400638133393 (check digit 1). -/
theorem ean13_checkdigit_roundtrip_witness :
    isValidEAN13 (['4','0','0','6','3','8','1','3','3','3','9','3'] ++
      [digitChar (calculateEAN13Checksum
        ['4','0','0','6','3','8','1','3','3','3','9','3'])]) = true :=
  ean13_checkdigit_roundtrip.1 _ (by decide) (by decide)

theorem getD_take (l : List Char) : ∀ n i : ℕ, i < n → (l.take n).getD i 'X' = l.getD i 'X' := by
  induction l with
  | nil => intro n i _; simp
  | cons a t ih =>
    intro n i hin
    cases n with
    | zero => omega
    | succ m =>
      cases i with
      | zero => rfl
      | succ j => simpa using ih m j (by omega)

/-- Recursive weighted sum with weights 3,1,3,1,… expressed as an indexed
sum: the digit at even index contributes ×3, at odd index ×1. -/
theorem sumW3_eq_sum (cs : List Char) : ∀ k : ℕ,
    sumW3 cs k = ∑ i ∈ Finset.range cs.length,
      (if (k + i) % 2 = 0 then 3 * toDigit (cs.getD i 'X') else toDigit (cs.getD i 'X')) := by
  induction cs with
  | nil => intro k; simp [sumW3]
  | cons c rest ih =>
    intro k
    rw [sumW3, ih (k + 1), List.length_cons, Finset.sum_range_succ']
    simp only [List.getD_cons_succ, List.getD_cons_zero, Nat.add_zero]
    rw [Nat.add_comm]
    congr 1
    apply Finset.sum_congr rfl
    intro i _
    have hparity : k + (i + 1) = k + 1 + i := by omega
    rw [hparity]

/-- Recursive weighted sum with weights 1,3,1,3,… expressed as an indexed
sum: the digit at even index contributes ×1, at odd index ×3. -/
theorem sumW1_eq_sum (cs : List Char) : ∀ k : ℕ,
    sumW1 cs k = ∑ i ∈ Finset.range cs.length,
      (if (k + i) % 2 = 0 then toDigit (cs.getD i 'X') else 3 * toDigit (cs.getD i 'X')) := by
  induction cs with
  | nil => intro k; simp [sumW1]
  | cons c rest ih =>
    intro k
    rw [sumW1, ih (k + 1), List.length_cons, Finset.sum_range_succ']
    simp only [List.getD_cons_succ, List.getD_cons_zero, Nat.add_zero]
    rw [Nat.add_comm]
    congr 1
    apply Finset.sum_congr rfl
    intro i _
    have hparity : k + (i + 1) = k + 1 + i := by omega
    rw [hparity]

/-- Weighted 3,1-sum over the first `n` characters, in indexed form. -/
theorem sumW3_take (v : List Char) (n : ℕ) (h : n ≤ v.length) :
    sumW3 (v.take n) 0 = ∑ i ∈ Finset.range n,
      (if i % 2 = 0 then 3 * toDigit (v.getD i 'X') else toDigit (v.getD i 'X')) := by
  rw [sumW3_eq_sum, List.length_take, Nat.min_eq_left h]
  apply Finset.sum_congr rfl
  intro i hi
  rw [getD_take v n i (Finset.mem_range.mp hi)]
  simp

/-- C4: EAN-8 and UPC-A use the weighting parity inverted relative to
EAN-13: a full-length numeric string is accepted iff its trailing digit
equals `(10 - (sum % 10)) % 10`, where even 0-based index over the leading
digits contributes digit × 3 and odd index contributes digit × 1. -/
theorem ean8_upca_inverted_weighting :
    (∀ v : List Char, v.length = 8 → v.all isDigitChar = true →
      (isValidEAN8 v = true ↔
        toDigit (v.getD 7 'X') = mod10Check (∑ i ∈ Finset.range 7,
          (if i % 2 = 0 then 3 * toDigit (v.getD i 'X') else toDigit (v.getD i 'X'))))) ∧
    (∀ v : List Char, v.length = 12 → v.all isDigitChar = true →
      (isValidUPCA v = true ↔
        toDigit (v.getD 11 'X') = mod10Check (∑ i ∈ Finset.range 11,
          (if i % 2 = 0 then 3 * toDigit (v.getD i 'X') else toDigit (v.getD i 'X'))))) := by
  constructor
  · intro v hlen hdig
    have hs : ean8Check v = mod10Check (∑ i ∈ Finset.range 7,
        (if i % 2 = 0 then 3 * toDigit (v.getD i 'X') else toDigit (v.getD i 'X'))) := by
      unfold ean8Check
      rw [sumW3_take v 7 (by omega)]
    simp only [isValidEAN8, Bool.and_eq_true, beq_iff_eq, hs]
    constructor
    · rintro ⟨-, h⟩
      exact h.symm
    · intro h
      exact ⟨⟨hlen, hdig⟩, h.symm⟩
  · intro v hlen hdig
    have hs : upcaCheck v = mod10Check (∑ i ∈ Finset.range 11,
        (if i % 2 = 0 then 3 * toDigit (v.getD i 'X') else toDigit (v.getD i 'X'))) := by
      unfold upcaCheck
      rw [sumW3_take v 11 (by omega)]
    simp only [isValidUPCA, Bool.and_eq_true, beq_iff_eq, hs]
    constructor
    · rintro ⟨-, h⟩
      exact h.symm
    · intro h
      exact ⟨⟨hlen, hdig⟩, h.symm⟩

/-- Witness for C4 at the EAN-8 vector 40170725 and the UPC-A vector
036000291452 (both with correct trailing check digit). -/
theorem ean8_upca_inverted_weighting_witness :
    (isValidEAN8 ['4','0','1','7','0','7','2','5'] = true ↔
      toDigit ((['4','0','1','7','0','7','2','5'] : List Char).getD 7 'X') =
        mod10Check (∑ i ∈ Finset.range 7,
          (if i % 2 = 0 then
            3 * toDigit ((['4','0','1','7','0','7','2','5'] : List Char).getD i 'X')
          else toDigit ((['4','0','1','7','0','7','2','5'] : List Char).getD i 'X')))) :=
  ean8_upca_inverted_weighting.1 _ (by decide) (by decide)

/-- C1 counterexample: `isValidITF14` accepts `00000000000017`, whose
trailing digit is 7, although the EAN-13-style weighting described by the
spec (even index ×1, odd ×3) gives check digit 9 for its first 13 digits.
So the ITF-14 validator does NOT use the same weighting as EAN-13. -/
theorem itf14_spec_weighting_cex :
    isValidITF14 ['0','0','0','0','0','0','0','0','0','0','0','0','1','7'] = true ∧
    specEAN13WeightedITF14Check
      ['0','0','0','0','0','0','0','0','0','0','0','0','1','7'] = 9 ∧
    toDigit ((['0','0','0','0','0','0','0','0','0','0','0','0','1','7'] :
      List Char).getD 13 'X') = 7 := by
  decide

/-- C1 amended: ITF-14 validation uses the weighting parity inverted
relative to EAN-13 (the same parity as EAN-8/UPC-A): a 14-digit numeric
string is accepted iff its trailing digit equals the mod-10 check digit
computed over the first 13 digits with even 0-based index contributing
digit × 3 and odd index contributing digit × 1. -/
theorem itf14_inverted_weighting :
    ∀ v : List Char, v.length = 14 → v.all isDigitChar = true →
      (isValidITF14 v = true ↔
        toDigit (v.getD 13 'X') = mod10Check (∑ i ∈ Finset.range 13,
          (if i % 2 = 0 then 3 * toDigit (v.getD i 'X') else toDigit (v.getD i 'X')))) := by
  intro v hlen hdig
  have hs : itf14Check v = mod10Check (∑ i ∈ Finset.range 13,
      (if i % 2 = 0 then 3 * toDigit (v.getD i 'X') else toDigit (v.getD i 'X'))) := by
    unfold itf14Check
    rw [sumW3_take v 13 (by omega)]
  simp only [isValidITF14, Bool.and_eq_true, beq_iff_eq, hs]
  constructor
  · rintro ⟨-, h⟩
    exact h.symm
  · intro h
    exact ⟨⟨hlen, hdig⟩, h.symm⟩

/-- Witness for the amended C1 at the GS1-valid input 00000000000017. -/
theorem itf14_inverted_weighting_witness :
    (isValidITF14 ['0','0','0','0','0','0','0','0','0','0','0','0','1','7'] = true ↔
      toDigit ((['0','0','0','0','0','0','0','0','0','0','0','0','1','7'] :
        List Char).getD 13 'X') =
        mod10Check (∑ i ∈ Finset.range 13,
          (if i % 2 = 0 then
            3 * toDigit ((['0','0','0','0','0','0','0','0','0','0','0','0','1','7'] :
              List Char).getD i 'X')
          else toDigit ((['0','0','0','0','0','0','0','0','0','0','0','0','1','7'] :
            List Char).getD i 'X')))) :=
  itf14_inverted_weighting _ (by decide) (by decide)

/- ------------------------------------------------------------------ -/
/- Format registry and the generate handler.                           -/
/- ------------------------------------------------------------------ -/

/-- Whitespace characters stripped by the JavaScript `trim()` method and
skipped by `Number.parseInt` (the ASCII subset relevant here). -/
def jsWhitespaceChar (c : Char) : Bool :=
  c == ' ' || c == '\t' || c == '\n' || c == '\r' || c == '\x0B' || c == '\x0C'

/-- Model of the JavaScript `String.prototype.trim()`. -/
def jsTrim (cs : List Char) : List Char :=
  ((cs.dropWhile jsWhitespaceChar).reverse.dropWhile jsWhitespaceChar).reverse

/-- Value of a digit string read left to right, the arithmetic performed
by `Number.parseInt` on the digit prefix it finds. -/
def parseIntDigits (cs : List Char) : ℕ :=
  cs.foldl (fun acc c => 10 * acc + toDigit c) 0

/-- Model of JavaScript `Number.parseInt(v, 10)`: skip leading whitespace,
read an optional sign, then take the longest digit prefix; `none` models
the `NaN` result (no digit found). -/
def parseIntJS (cs : List Char) : Option ℤ :=
  let cs1 := cs.dropWhile jsWhitespaceChar
  let signNeg : Bool := cs1.headD 'X' == '-'
  let hasSign : Bool := signNeg || (cs1.headD 'X' == '+')
  let body := if hasSign then cs1.tail else cs1
  let ds := body.takeWhile isDigitChar
  if ds.isEmpty then none
  else if signNeg then some (-(parseIntDigits ds : ℤ))
  else some ((parseIntDigits ds : ℤ))

/-- Validator of the `code128` entry: `v.length > 0 && v.length <= 80`. -/
def code128Validation (v : List Char) : Bool := 0 < v.length && v.length ≤ 80

/-- Validator of the `ean13` entry:
`/^\d{12,13}$/.test(v) && (v.length === 12 || isValidEAN13(v))`. -/
def ean13Validation (v : List Char) : Bool :=
  ((v.length == 12 || v.length == 13) && v.all isDigitChar) &&
    (v.length == 12 || isValidEAN13 v)

/-- Validator of the `ean8` entry. -/
def ean8Validation (v : List Char) : Bool :=
  ((v.length == 7 || v.length == 8) && v.all isDigitChar) &&
    (v.length == 7 || isValidEAN8 v)

/-- Validator of the `upca` entry. -/
def upcaValidation (v : List Char) : Bool :=
  ((v.length == 11 || v.length == 12) && v.all isDigitChar) &&
    (v.length == 11 || isValidUPCA v)

/-- Model of `isValidUPCE` (source lines 144–161): 6–8 digits, and when the
length is 7 or 8 the first digit must be 0 or 1. -/
def isValidUPCE (v : List Char) : Bool :=
  ((6 ≤ v.length && v.length ≤ 8) && v.all isDigitChar) &&
    (if v.length == 8 || v.length == 7 then
      v.getD 0 'X' == '0' || v.getD 0 'X' == '1'
    else true)

/-- Character class `[A-Z0-9\-. $/+%]` with the `i` flag of the CODE 39
validator. -/
def isCode39Char (c : Char) : Bool :=
  (('A' ≤ c && c ≤ 'Z') || ('a' ≤ c && c ≤ 'z') || isDigitChar c) ||
    (c == '-' || c == '.' || c == ' ' || c == '$' || c == '/' || c == '+' || c == '%')

/-- Validator of the `code39` entry: `/^[A-Z0-9\-. $/+%]+$/i.test(v)`. -/
def code39Validation (v : List Char) : Bool := !v.isEmpty && v.all isCode39Char

/-- Validator of the `itf14` entry. -/
def itf14Validation (v : List Char) : Bool :=
  ((v.length == 13 || v.length == 14) && v.all isDigitChar) &&
    (v.length == 13 || isValidITF14 v)

/-- Validator of the `itf` entry: `/^\d+$/.test(v) && v.length % 2 === 0`. -/
def itfValidation (v : List Char) : Bool :=
  (!v.isEmpty && v.all isDigitChar) && v.length % 2 == 0

/-- Validator of the `msi` entry: `/^\d+$/.test(v)`. -/
def msiValidation (v : List Char) : Bool := !v.isEmpty && v.all isDigitChar

/-- Validator of the `pharmacode` entry:
`const num = Number.parseInt(v, 10); return !Number.isNaN(num) && num >= 3 && num <= 131070`. -/
def pharmacodeValidation (v : List Char) : Bool :=
  match parseIntJS v with
  | none => false
  | some n => 3 ≤ n && n ≤ 131070

/-- Start/stop letter class `[A-Da-d]` of the Codabar validator. -/
def isCodabarLetter (c : Char) : Bool :=
  ('A' ≤ c && c ≤ 'D') || ('a' ≤ c && c ≤ 'd')

/-- Body character class `[0-9\-$:/.+]` of the Codabar validator. -/
def isCodabarBodyChar (c : Char) : Bool :=
  isDigitChar c || c == '-' || c == '$' || c == ':' || c == '/' || c == '.' || c == '+'

/-- Validator of the `codabar` entry, the regex
`^[A-Da-d][0-9\-$:/.+]+[A-Da-d]$`: a start letter, a non-empty body of
body characters, and a stop letter. -/
def codabarValidation : List Char → Bool
  | [] => false
  | start :: rest =>
    match rest.getLast? with
    | none => false
    | some stop =>
      ((isCodabarLetter start && !rest.dropLast.isEmpty) &&
        rest.dropLast.all isCodabarBodyChar) && isCodabarLetter stop

/-- Model of the `CodeFormat` interface (source lines 208–218).  The
source field `type` ("qr" or "barcode") is called `kind` here. -/
structure CodeFormat where
  id : String
  name : String
  kind : String
  format : Option String
  maxLength : Option ℕ
  validation : Option (List Char → Bool)
  validationMessage : Option String

/-- Entry `qr` of `CODE_FORMATS`. -/
def qrFormat : CodeFormat := ⟨"qr", "QR Code", "qr", none, none, none, none⟩

/-- Entry `code128` of `CODE_FORMATS`. -/
def code128Format : CodeFormat :=
  ⟨"code128", "CODE 128", "barcode", some "CODE128", none, some code128Validation,
    some "CODE 128 requires 1-80 characters"⟩

/-- Entry `ean13` of `CODE_FORMATS`. -/
def ean13Format : CodeFormat :=
  ⟨"ean13", "EAN-13", "barcode", some "EAN13", some 13, some ean13Validation,
    some "EAN-13 requires 12 digits (auto checksum) or 13 with valid checksum"⟩

/-- Entry `ean8` of `CODE_FORMATS`. -/
def ean8Format : CodeFormat :=
  ⟨"ean8", "EAN-8", "barcode", some "EAN8", some 8, some ean8Validation,
    some "EAN-8 requires 7 digits (auto checksum) or 8 with valid checksum"⟩

/-- Entry `upca` of `CODE_FORMATS`. -/
def upcaFormat : CodeFormat :=
  ⟨"upca", "UPC-A", "barcode", some "UPC", some 12, some upcaValidation,
    some "UPC-A requires 11 digits (auto checksum) or 12 with valid checksum"⟩

/-- Entry `upce` of `CODE_FORMATS`. -/
def upceFormat : CodeFormat :=
  ⟨"upce", "UPC-E", "barcode", some "UPCE", some 8, some isValidUPCE,
    some "UPC-E requires 6-8 digits, must start with 0 or 1 if 7-8 digits"⟩

/-- Entry `code39` of `CODE_FORMATS`. -/
def code39Format : CodeFormat :=
  ⟨"code39", "CODE 39", "barcode", some "CODE39", none, some code39Validation,
    some "CODE 39 supports A-Z, 0-9, and -. $/+%"⟩

/-- Entry `itf14` of `CODE_FORMATS`. -/
def itf14Format : CodeFormat :=
  ⟨"itf14", "ITF-14", "barcode", some "ITF14", some 14, some itf14Validation,
    some "ITF-14 requires 13 digits (auto checksum) or 14 with valid checksum"⟩

/-- Entry `itf` of `CODE_FORMATS`. -/
def itfFormat : CodeFormat :=
  ⟨"itf", "ITF", "barcode", some "ITF", none, some itfValidation,
    some "ITF requires an even number of digits"⟩

/-- Entry `msi` of `CODE_FORMATS`. -/
def msiFormat : CodeFormat :=
  ⟨"msi", "MSI", "barcode", some "MSI", none, some msiValidation,
    some "MSI requires only digits"⟩

/-- Entry `pharmacode` of `CODE_FORMATS`. -/
def pharmacodeFormat : CodeFormat :=
  ⟨"pharmacode", "Pharmacode", "barcode", some "pharmacode", none,
    some pharmacodeValidation,
    some "Pharmacode requires a number between 3 and 131070"⟩

/-- Entry `codabar` of `CODE_FORMATS`. -/
def codabarFormat : CodeFormat :=
  ⟨"codabar", "Codabar", "barcode", some "codabar", none, some codabarValidation,
    some "Codabar must start/end with A-D"⟩

/-- Model of the `CODE_FORMATS` table (source lines 220–346), in source
order. -/
def CODE_FORMATS : List CodeFormat :=
  [qrFormat, code128Format, ean13Format, ean8Format, upcaFormat, upceFormat,
    code39Format, itf14Format, itfFormat, msiFormat, pharmacodeFormat, codabarFormat]

/-- Outcomes of a generate request, following the error taxonomy of the
spec.  The constructor `tooLong` exists so that claims about a `TooLong`
outcome can be stated; the generate handler itself never produces it. -/
inductive GenOutcome where
  | emptyInput : GenOutcome
  | tooLong : GenOutcome
  | invalidInput : Option String → GenOutcome
  | generated : List Char → GenOutcome
deriving DecidableEq

/-- Model of `handleGenerate` (source lines 377–402): reject when the
trimmed input is empty, then run the selected format's validator (when it
has one), then accept the raw input as the generated value. -/
def handleGenerate (fmt : CodeFormat) (input : List Char) : GenOutcome :=
  if (jsTrim input).isEmpty then GenOutcome.emptyInput
  else
    match fmt.validation with
    | some validate =>
      if !validate input then GenOutcome.invalidInput fmt.validationMessage
      else GenOutcome.generated input
    | none => GenOutcome.generated input

/- ------------------------------------------------------------------ -/
/- Claim C5: empty input is rejected before validation, for every       -/
/- registered format.                                                   -/
/- ------------------------------------------------------------------ -/

/-- C5: for every registered format and every input whose trimmed form is
empty, the generate handler fails with the empty-input outcome; the
format's validator is never consulted (the definition returns before the
match on `fmt.validation`). -/
theorem empty_input_rejected :
    ∀ fmt ∈ CODE_FORMATS, ∀ input : List Char, jsTrim input = [] →
      handleGenerate fmt input = GenOutcome.emptyInput := by
  intro fmt _ input h
  unfold handleGenerate
  rw [h]
  rfl

/-- Witness for C5: the `qr` format with a whitespace-only input. -/
theorem empty_input_rejected_witness :
    handleGenerate qrFormat [' '] = GenOutcome.emptyInput :=
  empty_input_rejected qrFormat (List.mem_cons_self qrFormat _) [' '] (by decide)

/- ------------------------------------------------------------------ -/
/- Claim C10: Codabar accepts no string shorter than 3 characters.      -/
/- ------------------------------------------------------------------ -/

/-- C10: the Codabar validator rejects every string of length less than 3;
in particular the two-letter input `AB` is rejected even though both
characters are valid start/stop letters, and every accepted string has
length at least 3. -/
theorem codabar_min_length :
    codabarValidation ['A', 'B'] = false ∧
    ∀ v : List Char, codabarValidation v = true → 3 ≤ v.length := by
  refine ⟨by decide, ?_⟩
  intro v h
  cases v with
  | nil => exact absurd h (by decide)
  | cons start rest =>
    cases hL : rest.getLast? with
    | none =>
      simp only [codabarValidation, hL] at h
      exact absurd h (by decide)
    | some stop =>
      simp only [codabarValidation, hL, Bool.and_eq_true] at h
      obtain ⟨⟨⟨-, h2⟩, -⟩, -⟩ := h
      have h3 : rest.dropLast ≠ [] := by
        intro hnil
        rw [hnil] at h2
        exact absurd h2 (by decide)
      have h4 : 0 < rest.dropLast.length := List.length_pos.mpr h3
      have h5 : rest.dropLast.length = rest.length - 1 := List.length_dropLast rest
      simp only [List.length_cons]
      omega

/-- Witness for C10 at the accepted input `A1B` of length exactly 3. -/
theorem codabar_min_length_witness : 3 ≤ (['A', '1', 'B'] : List Char).length :=
  codabar_min_length.2 ['A', '1', 'B'] (by decide)

/- ------------------------------------------------------------------ -/
/- Claim C6: there is no separate length re-check in the handler.       -/
/- ------------------------------------------------------------------ -/

theorem handleGenerate_eq_invalid (fmt : CodeFormat) (input : List Char)
    (val : List Char → Bool) (hval : fmt.validation = some val)
    (hfalse : val input = false) (htrim : jsTrim input ≠ []) :
    handleGenerate fmt input = GenOutcome.invalidInput fmt.validationMessage := by
  have hE : (jsTrim input).isEmpty = false := by
    cases hJ : jsTrim input with
    | nil => exact absurd hJ htrim
    | cons a t => rfl
  simp [handleGenerate, hE, hval, hfalse]

/-- C6 counterexample: for the `ean13` format, whose descriptor sets
`maxLength = 13`, a 14-character input is not rejected with a `TooLong`
outcome — the handler performs no length re-check and the input falls
through to the format validator, producing the `Invalid(validationMessage)`
outcome instead. -/
theorem toolong_not_rechecked_cex :
    ean13Format.maxLength = some 13 ∧
    (['4','0','0','6','3','8','1','3','3','3','9','3','1','7'] : List Char).length = 14 ∧
    handleGenerate ean13Format ['4','0','0','6','3','8','1','3','3','3','9','3','1','7'] =
      GenOutcome.invalidInput
        (some "EAN-13 requires 12 digits (auto checksum) or 13 with valid checksum") ∧
    handleGenerate ean13Format ['4','0','0','6','3','8','1','3','3','3','9','3','1','7'] ≠
      GenOutcome.tooLong := by
  decide

/-- C6 amended: the generate handler performs no length re-check of its
own; `maxLength` is enforced only by the input-masking layer.  For every
registered format whose descriptor sets `maxLength` and every (non
whitespace-only) input longer than it, the format validator fails and the
outcome is `Invalid(validationMessage)` — never `TooLong`. -/
theorem overlong_input_invalid :
    ∀ fmt ∈ CODE_FORMATS, ∀ n : ℕ, fmt.maxLength = some n →
      ∀ input : List Char, n < input.length → jsTrim input ≠ [] →
        handleGenerate fmt input = GenOutcome.invalidInput fmt.validationMessage := by
  intro fmt hmem n hmax input hlong htrim
  fin_cases hmem
  · simp [qrFormat] at hmax
  · simp [code128Format] at hmax
  · -- ean13, maxLength 13
    have hn : n = 13 := by simp [ean13Format] at hmax; omega
    subst hn
    have h12 : (input.length == 12) = false := by
      simp only [beq_eq_false_iff_ne]
      omega
    have h13 : (input.length == 13) = false := by
      simp only [beq_eq_false_iff_ne]
      omega
    have hv : ean13Validation input = false := by
      simp [ean13Validation, h12, h13]
    exact handleGenerate_eq_invalid _ _ ean13Validation rfl hv htrim
  · -- ean8, maxLength 8
    have hn : n = 8 := by simp [ean8Format] at hmax; omega
    subst hn
    have h7 : (input.length == 7) = false := by
      simp only [beq_eq_false_iff_ne]
      omega
    have h8 : (input.length == 8) = false := by
      simp only [beq_eq_false_iff_ne]
      omega
    have hv : ean8Validation input = false := by
      simp [ean8Validation, h7, h8]
    exact handleGenerate_eq_invalid _ _ ean8Validation rfl hv htrim
  · -- upca, maxLength 12
    have hn : n = 12 := by simp [upcaFormat] at hmax; omega
    subst hn
    have h11 : (input.length == 11) = false := by
      simp only [beq_eq_false_iff_ne]
      omega
    have h12 : (input.length == 12) = false := by
      simp only [beq_eq_false_iff_ne]
      omega
    have hv : upcaValidation input = false := by
      simp [upcaValidation, h11, h12]
    exact handleGenerate_eq_invalid _ _ upcaValidation rfl hv htrim
  · -- upce, maxLength 8
    have hn : n = 8 := by simp [upceFormat] at hmax; omega
    subst hn
    have h8 : (decide (input.length ≤ 8)) = false := by
      simp only [decide_eq_false_iff_not]
      omega
    have hv : isValidUPCE input = false := by
      simp [isValidUPCE, h8]
    exact handleGenerate_eq_invalid _ _ isValidUPCE rfl hv htrim
  · simp [code39Format] at hmax
  · -- itf14, maxLength 14
    have hn : n = 14 := by simp [itf14Format] at hmax; omega
    subst hn
    have h13 : (input.length == 13) = false := by
      simp only [beq_eq_false_iff_ne]
      omega
    have h14 : (input.length == 14) = false := by
      simp only [beq_eq_false_iff_ne]
      omega
    have hv : itf14Validation input = false := by
      simp [itf14Validation, h13, h14]
    exact handleGenerate_eq_invalid _ _ itf14Validation rfl hv htrim
  · simp [itfFormat] at hmax
  · simp [msiFormat] at hmax
  · simp [pharmacodeFormat] at hmax
  · simp [codabarFormat] at hmax

/-- Witness for the amended C6: a 14-digit input on the `ean13` format. -/
theorem overlong_input_invalid_witness :
    handleGenerate ean13Format ['1','2','3','4','5','6','7','8','9','0','1','2','3','4'] =
      GenOutcome.invalidInput ean13Format.validationMessage :=
  overlong_input_invalid ean13Format
    (by simp [CODE_FORMATS]) 13 rfl
    ['1','2','3','4','5','6','7','8','9','0','1','2','3','4'] (by decide) (by decide)

/- ------------------------------------------------------------------ -/
/- Claim C7: the Pharmacode range rule.                                 -/
/- ------------------------------------------------------------------ -/

/-- C7 counterexample: the Pharmacode validator accepts `3a`, an input
that is not a digit string — `Number.parseInt` reads the digit prefix `3`
and ignores the rest — so acceptance is not equivalent to being a digit
string with value in [3, 131070]. -/
theorem pharmacode_charset_cex :
    pharmacodeValidation ['3', 'a'] = true ∧
    (['3', 'a'] : List Char).all isDigitChar = false := by
  decide

/- ------------------------------------------------------------------ -/
/- Digit strings, trimming and parseInt.                                -/
/- ------------------------------------------------------------------ -/

theorem dropWhile_eq_self_of_not (p : Char → Bool) (l : List Char)
    (h : ∀ c ∈ l, p c = false) : l.dropWhile p = l := by
  cases l with
  | nil => rfl
  | cons a t => simp [List.dropWhile_cons, h a (List.mem_cons_self a t)]

theorem takeWhile_eq_self_of_all (p : Char → Bool) (l : List Char)
    (h : ∀ c ∈ l, p c = true) : l.takeWhile p = l := by
  induction l with
  | nil => rfl
  | cons a t ih =>
    rw [List.takeWhile_cons, h a (List.mem_cons_self a t)]
    simp [ih (fun c hc => h c (List.mem_cons_of_mem a hc))]

theorem not_ws_of_digit (c : Char) (h : isDigitChar c = true) :
    jsWhitespaceChar c = false := by
  have h48 : 48 ≤ c.toNat := by
    simp only [isDigitChar, Bool.and_eq_true, decide_eq_true_eq] at h
    exact h.1
  have hne : ∀ d : Char, d.toNat < 48 → (c == d) = false := by
    intro d hd
    rw [beq_eq_false_iff_ne]
    rintro rfl
    omega
  simp [jsWhitespaceChar, hne ' ' (by decide), hne '\t' (by decide),
    hne '\n' (by decide), hne '\r' (by decide), hne '\x0B' (by decide),
    hne '\x0C' (by decide)]

theorem jsTrim_eq_self (v : List Char) (h : ∀ c ∈ v, jsWhitespaceChar c = false) :
    jsTrim v = v := by
  unfold jsTrim
  rw [dropWhile_eq_self_of_not _ _ h,
    dropWhile_eq_self_of_not _ _ (fun c hc => h c (List.mem_reverse.mp hc)),
    List.reverse_reverse]

theorem jsTrim_of_digits (v : List Char) (h : v.all isDigitChar = true) :
    jsTrim v = v :=
  jsTrim_eq_self v (fun c hc => not_ws_of_digit c (List.all_eq_true.mp h c hc))

theorem isEmpty_false_of_ne (l : List Char) (h : l ≠ []) : l.isEmpty = false := by
  cases l with
  | nil => exact absurd rfl h
  | cons a t => rfl

/-- Behaviour of the modelled `Number.parseInt(v, 10)` on a non-empty
all-digit input: it reads the whole string. -/
theorem parseIntJS_digits (v : List Char) (hne : v ≠ []) (h : v.all isDigitChar = true) :
    parseIntJS v = some ((parseIntDigits v : ℤ)) := by
  have hd : v.dropWhile jsWhitespaceChar = v :=
    dropWhile_eq_self_of_not _ _
      (fun c hc => not_ws_of_digit c (List.all_eq_true.mp h c hc))
  have ht : v.takeWhile isDigitChar = v :=
    takeWhile_eq_self_of_all _ _ (List.all_eq_true.mp h)
  cases v with
  | nil => exact absurd rfl hne
  | cons a t =>
    have ha : isDigitChar a = true := List.all_eq_true.mp h a (List.mem_cons_self a t)
    have hminus : (a == '-') = false := by
      rw [beq_eq_false_iff_ne]
      rintro rfl
      exact absurd ha (by decide)
    have hplus : (a == '+') = false := by
      rw [beq_eq_false_iff_ne]
      rintro rfl
      exact absurd ha (by decide)
    simp [parseIntJS, hd, ht, hminus, hplus]

/- ------------------------------------------------------------------ -/
/- The Encode Orchestrator, modelled from the spec.                     -/
/- ------------------------------------------------------------------ -/

/-- Modelled from the spec: the check-digit auto-completion of Encode
Orchestrator step 5 ("compute and append the check digit").  In the
running system this normalization happens inside the external
barcode-rendering backend after `handleGenerate` passes a short-form
value through; it is not repository source, so it is modelled from the
spec here.  For each checksum symbology the appended digit is the one the
repository's own full-length validator requires. -/
def autoComplete (id : String) (v : List Char) : List Char :=
  if id == "ean13" && v.length == 12 then v ++ [digitChar (calculateEAN13Checksum v)]
  else if id == "ean8" && v.length == 7 then v ++ [digitChar (ean8Check v)]
  else if id == "upca" && v.length == 11 then v ++ [digitChar (upcaCheck v)]
  else if id == "itf14" && v.length == 13 then v ++ [digitChar (itf14Check v)]
  else v

/-- Modelled from the spec: normalization step 5 of the Encode
Orchestrator — uppercase folding for CODE39/Codabar, check-digit
completion for the checksum symbologies, identity otherwise. -/
def normalizeValue (id : String) (v : List Char) : List Char :=
  if id == "code39" || id == "codabar" then v.map Char.toUpper else autoComplete id v

/-- Encode results, following the spec's error taxonomy. -/
inductive EncodeResult where
  | unknownFormat : EncodeResult
  | emptyInput : EncodeResult
  | tooLong : EncodeResult
  | invalid : Option String → EncodeResult
  | valid : List Char → String → EncodeResult
deriving DecidableEq

/-- Validation and normalization, steps 4–6 of the modelled orchestrator. -/
def encodeValidated (fmt : CodeFormat) (rawInput : List Char) : EncodeResult :=
  match fmt.validation with
  | some validate =>
    if !validate rawInput then EncodeResult.invalid fmt.validationMessage
    else EncodeResult.valid (normalizeValue fmt.id rawInput) fmt.id
  | none => EncodeResult.valid (normalizeValue fmt.id rawInput) fmt.id

/-- Modelled from the spec: the Encode Orchestrator
`encode(formatId, rawInput)` of §4.5.  Steps 1, 2 and 4 correspond to the
registry lookup and to `handleGenerate` in the source; step 3 (`TooLong`)
and step 5 (the normalized value) are modelled from the spec, because the
length clamp lives in the input-masking UI layer and the check-digit
completion in the external rendering backend, neither of which is
repository source. -/
def encode (formatId : String) (rawInput : List Char) : EncodeResult :=
  match CODE_FORMATS.find? (fun f => f.id == formatId) with
  | none => EncodeResult.unknownFormat
  | some fmt =>
    if (jsTrim rawInput).isEmpty then EncodeResult.emptyInput
    else
      match fmt.maxLength with
      | some n =>
        if n < rawInput.length then EncodeResult.tooLong
        else encodeValidated fmt rawInput
      | none => encodeValidated fmt rawInput

theorem find_ean13 :
    CODE_FORMATS.find? (fun f => f.id == "ean13") = some ean13Format := rfl

theorem find_ean8 :
    CODE_FORMATS.find? (fun f => f.id == "ean8") = some ean8Format := rfl

theorem find_upca :
    CODE_FORMATS.find? (fun f => f.id == "upca") = some upcaFormat := rfl

theorem find_itf14 :
    CODE_FORMATS.find? (fun f => f.id == "itf14") = some itf14Format := rfl

/-- C2: on the modelled Encode Orchestrator, every checksum symbology
normalizes a short-form all-digit input by appending its computed check
digit, and `encode("ean13", "400638133393")` yields the normalized value
`4006381333931` (the appended check digit is 1) with format id `ean13`. -/
theorem shortform_appends_checkdigit :
    (∀ v : List Char, v.length = 12 → v.all isDigitChar = true →
      encode "ean13" v =
        EncodeResult.valid (v ++ [digitChar (calculateEAN13Checksum v)]) "ean13") ∧
    (∀ v : List Char, v.length = 7 → v.all isDigitChar = true →
      encode "ean8" v = EncodeResult.valid (v ++ [digitChar (ean8Check v)]) "ean8") ∧
    (∀ v : List Char, v.length = 11 → v.all isDigitChar = true →
      encode "upca" v = EncodeResult.valid (v ++ [digitChar (upcaCheck v)]) "upca") ∧
    (∀ v : List Char, v.length = 13 → v.all isDigitChar = true →
      encode "itf14" v = EncodeResult.valid (v ++ [digitChar (itf14Check v)]) "itf14") ∧
    encode "ean13" ['4','0','0','6','3','8','1','3','3','3','9','3'] =
      EncodeResult.valid ['4','0','0','6','3','8','1','3','3','3','9','3','1'] "ean13" := by
  refine ⟨?_, ?_, ?_, ?_, by decide⟩
  · intro v hlen hdig
    have hne : v ≠ [] := by
      intro hv
      rw [hv] at hlen
      exact absurd hlen (by decide)
    have htrim : (jsTrim v).isEmpty = false := by
      rw [jsTrim_of_digits v hdig]
      exact isEmpty_false_of_ne v hne
    have hval : ean13Validation v = true := by
      simp [ean13Validation, hlen, hdig]
    have hlt : ¬ (13 < v.length) := by omega
    simp [encode, find_ean13, htrim, hlt, encodeValidated, ean13Format, hval,
      normalizeValue, autoComplete, hlen]
  · intro v hlen hdig
    have hne : v ≠ [] := by
      intro hv
      rw [hv] at hlen
      exact absurd hlen (by decide)
    have htrim : (jsTrim v).isEmpty = false := by
      rw [jsTrim_of_digits v hdig]
      exact isEmpty_false_of_ne v hne
    have hval : ean8Validation v = true := by
      simp [ean8Validation, hlen, hdig]
    have hlt : ¬ (8 < v.length) := by omega
    simp [encode, find_ean8, htrim, hlt, encodeValidated, ean8Format, hval,
      normalizeValue, autoComplete, hlen]
  · intro v hlen hdig
    have hne : v ≠ [] := by
      intro hv
      rw [hv] at hlen
      exact absurd hlen (by decide)
    have htrim : (jsTrim v).isEmpty = false := by
      rw [jsTrim_of_digits v hdig]
      exact isEmpty_false_of_ne v hne
    have hval : upcaValidation v = true := by
      simp [upcaValidation, hlen, hdig]
    have hlt : ¬ (12 < v.length) := by omega
    simp [encode, find_upca, htrim, hlt, encodeValidated, upcaFormat, hval,
      normalizeValue, autoComplete, hlen]
  · intro v hlen hdig
    have hne : v ≠ [] := by
      intro hv
      rw [hv] at hlen
      exact absurd hlen (by decide)
    have htrim : (jsTrim v).isEmpty = false := by
      rw [jsTrim_of_digits v hdig]
      exact isEmpty_false_of_ne v hne
    have hval : itf14Validation v = true := by
      simp [itf14Validation, hlen, hdig]
    have hlt : ¬ (14 < v.length) := by omega
    simp [encode, find_itf14, htrim, hlt, encodeValidated, itf14Format, hval,
      normalizeValue, autoComplete, hlen]

/-- Witness for C2 at the 12-digit input 400638133393. -/
theorem shortform_appends_checkdigit_witness :
    encode "ean13" ['4','0','0','6','3','8','1','3','3','3','9','3'] =
      EncodeResult.valid (['4','0','0','6','3','8','1','3','3','3','9','3'] ++
        [digitChar (calculateEAN13Checksum
          ['4','0','0','6','3','8','1','3','3','3','9','3'])]) "ean13" :=
  shortform_appends_checkdigit.1 _ (by decide) (by decide)

/-- C7 amended: Pharmacode acceptance is equivalent to `parseInt` reading
a value in [3, 131070].  On all-digit strings this is exactly "value in
[3, 131070]", and `2`, `131070`, `131071` behave as the spec's examples
state; but the validator does not require the whole input to be digits
(see the counterexample `3a`). -/
theorem pharmacode_range :
    (∀ v : List Char, v ≠ [] → v.all isDigitChar = true →
      (pharmacodeValidation v = true ↔
        3 ≤ parseIntDigits v ∧ parseIntDigits v ≤ 131070)) ∧
    encode "pharmacode" ['2'] = EncodeResult.invalid
      (some "Pharmacode requires a number between 3 and 131070") ∧
    encode "pharmacode" ['1','3','1','0','7','0'] =
      EncodeResult.valid ['1','3','1','0','7','0'] "pharmacode" ∧
    encode "pharmacode" ['1','3','1','0','7','1'] = EncodeResult.invalid
      (some "Pharmacode requires a number between 3 and 131070") := by
  refine ⟨?_, by decide, by decide, by decide⟩
  intro v hne hdig
  simp only [pharmacodeValidation, parseIntJS_digits v hne hdig, Bool.and_eq_true,
    decide_eq_true_eq]
  omega

/-- Witness for the amended C7 at the boundary input 131070. -/
theorem pharmacode_range_witness :
    (pharmacodeValidation ['1','3','1','0','7','0'] = true ↔
      3 ≤ parseIntDigits ['1','3','1','0','7','0'] ∧
        parseIntDigits ['1','3','1','0','7','0'] ≤ 131070) :=
  pharmacode_range.1 _ (by decide) (by decide)

/- ------------------------------------------------------------------ -/
/- Claim C8: render sizing policy of the QR component.                  -/
/- ------------------------------------------------------------------ -/

/-- Model of `const cellSize = Math.floor(size / moduleCount)` (source
line 73), over exact rationals. -/
def cellSize (S : ℚ) (M : ℕ) : ℤ := Int.floor (S / (M : ℚ))

/-- Model of `const actualSize = cellSize * moduleCount` (source line 74). -/
def actualSize (S : ℚ) (M : ℕ) : ℤ := cellSize S M * M

/-- C8: the rendered size is floor-quantized and never upscales — for
every target pixel size `S ≥ 0` and module count `M ≥ 1` the actual size
`cellSize * M` is at most `S`; for `S = 200`, `M = 25` this yields
`cellSize = 8` and `actualSize = 200`. -/
theorem render_sizing_no_upscale :
    (∀ (S : ℚ) (M : ℕ), 0 ≤ S → 1 ≤ M → ((actualSize S M : ℚ)) ≤ S) ∧
    cellSize 200 25 = 8 ∧ actualSize 200 25 = 200 := by
  refine ⟨?_, by norm_num [cellSize], by norm_num [actualSize, cellSize]⟩
  intro S M _ hM
  have hMpos : (0 : ℚ) < (M : ℚ) := by exact_mod_cast hM
  have h1 : ((Int.floor (S / (M : ℚ)) : ℚ)) ≤ S / (M : ℚ) := Int.floor_le _
  have h2 : ((Int.floor (S / (M : ℚ)) : ℚ)) * (M : ℚ) ≤ (S / (M : ℚ)) * (M : ℚ) :=
    mul_le_mul_of_nonneg_right h1 (le_of_lt hMpos)
  rw [div_mul_cancel₀ S (ne_of_gt hMpos)] at h2
  unfold actualSize cellSize
  push_cast
  exact h2

/-- Witness for C8 at the spec's test point `S = 200`, `M = 25`. -/
theorem render_sizing_no_upscale_witness : ((actualSize 200 25 : ℚ)) ≤ 200 :=
  render_sizing_no_upscale.1 200 25 (by norm_num) (by norm_num)

/- ------------------------------------------------------------------ -/
/- Claim C9: the history insertion invariant.                           -/
/- ------------------------------------------------------------------ -/

/-- Model of `ScanHistoryItem`; the JavaScript field `type` is called
`scanType` here. -/
structure ScanHistoryItem where
  id : String
  data : String
  scanType : String
  timestamp : ℕ
  formattedDate : String
deriving DecidableEq

/-- Model of `saveScanToHistory`: the list update it persists, given the
previously stored history.  `Date.now()` and its locale formatting are
ambient inputs of the source function, passed here as `ts` and `fd`. -/
def saveScanToHistory (history : List ScanHistoryItem) (d ty : String) (ts : ℕ)
    (fd : String) : List ScanHistoryItem :=
  let filteredHistory := history.filter (fun item => item.data != d)
  let newScan : ScanHistoryItem := ⟨"scan_" ++ toString ts, d, ty, ts, fd⟩
  (newScan :: filteredHistory).take 100

/-- Model of `GenerationHistoryItem`. -/
structure GenerationHistoryItem where
  id : String
  data : String
  format : String
  formatName : String
  timestamp : ℕ
  formattedDate : String
deriving DecidableEq

/-- Model of `saveGenerationToHistory`: duplicates share both `data` and
`format`. -/
def saveGenerationToHistory (history : List GenerationHistoryItem) (d fm fn : String)
    (ts : ℕ) (fd : String) : List GenerationHistoryItem :=
  let filteredHistory :=
    history.filter (fun item => !(item.data == d && item.format == fm))
  let newGeneration : GenerationHistoryItem := ⟨"gen_" ++ toString ts, d, fm, fn, ts, fd⟩
  (newGeneration :: filteredHistory).take 100

/-- C9: after every scan or generation save, the stored list has the newly
inserted item first, holds at most 100 items, and its remainder holds no
other item with the same content (same `data` for scans; same `data` and
`format` for generations). -/
theorem history_insertion_invariant :
    (∀ (history : List ScanHistoryItem) (d ty : String) (ts : ℕ) (fd : String),
      (saveScanToHistory history d ty ts fd).head? =
        some ⟨"scan_" ++ toString ts, d, ty, ts, fd⟩ ∧
      (saveScanToHistory history d ty ts fd).length ≤ 100 ∧
      ∀ it ∈ (saveScanToHistory history d ty ts fd).tail, it.data ≠ d) ∧
    (∀ (history : List GenerationHistoryItem) (d fm fn : String) (ts : ℕ) (fd : String),
      (saveGenerationToHistory history d fm fn ts fd).head? =
        some ⟨"gen_" ++ toString ts, d, fm, fn, ts, fd⟩ ∧
      (saveGenerationToHistory history d fm fn ts fd).length ≤ 100 ∧
      ∀ it ∈ (saveGenerationToHistory history d fm fn ts fd).tail,
        ¬(it.data = d ∧ it.format = fm)) := by
  constructor
  · intro history d ty ts fd
    refine ⟨rfl, ?_, ?_⟩
    · simp only [saveScanToHistory, List.length_take]
      omega
    · intro it hit
      have hit2 : it ∈ (history.filter (fun item => item.data != d)).take 99 := hit
      have h2 : it ∈ history.filter (fun item => item.data != d) :=
        List.take_subset _ _ hit2
      have h3 := (List.mem_filter.mp h2).2
      simpa using h3
  · intro history d fm fn ts fd

    refine ⟨rfl, ?_, ?_⟩
    · simp only [saveGenerationToHistory, List.length_take]
      omega
    · intro it hit
      have hit2 : it ∈
          (history.filter (fun item => !(item.data == d && item.format == fm))).take 99 :=
        hit
      have h2 : it ∈ history.filter (fun item => !(item.data == d && item.format == fm)) :=
        List.take_subset _ _ hit2
      have h3 := (List.mem_filter.mp h2).2
      rintro ⟨ha, hb⟩
      simp [ha, hb] at h3

/-- Witness for C9: saving data `d` removes the older entry with the same
data, so the surviving non-head entry has different data. -/
theorem history_insertion_invariant_witness :
    (⟨"scan_2", "e", "t", 2, "f2"⟩ : ScanHistoryItem).data ≠ "d" :=
  (history_insertion_invariant.1
    [⟨"scan_1", "d", "t", 1, "f1"⟩, ⟨"scan_2", "e", "t", 2, "f2"⟩]
    "d" "t" 5 "f").2.2 ⟨"scan_2", "e", "t", 2, "f2"⟩ (by decide)

end MobileScanner
